import Mathlib

/-!
# Verification of the text-to-SQL gateway core

Shallow embedding of the Go sources of `Rrens/text-to-sql`:

* `internal/mcp` validator (`ValidateSQL`, `EnforceLimit`, the blocked-pattern
  lists) — strings are modelled as `List Char`; every relevant Go string
  primitive (`strings.TrimSpace`, `strings.Count`, `strings.ToUpper`,
  `strings.HasPrefix`, `strings.Contains`, `strings.TrimSuffix`) is embedded
  as a function on `List Char`.  `strings.ToUpper` and the `(?i)` flag of the
  blocked-pattern regexps are modelled on ASCII letters, which is exact for
  the byte-level behaviour the validator relies on.
* `internal/llm/prompt.go` SQL extraction (`ExtractSQL` and its helpers,
  which the Go file itself defines byte by byte).
* the PostgreSQL adapter `ExecuteQuery` (validate, enforce limit, bounded
  row collection).
* the query pipeline `QueryService.ExecuteQuery` from
  `internal/service/query.go`, embedded as a deterministic state-passing
  function over an oracle environment (repository, adapter and LLM results).
-/

/-- Go strings are byte strings; the embedding models them as lists of
characters (exact for the ASCII data all claims range over). -/
abbrev GoStr := List Char

/-- Convert a Lean string literal to the embedded representation. -/
def gostr (s : String) : GoStr := s.data

/-- `unicode.IsSpace` restricted to ASCII, as used by Go `strings.TrimSpace`. -/
def goIsSpace (c : Char) : Bool :=
  c = ' ' || c = '\t' || c = '\n' || c = (Char.ofNat 11) || c = (Char.ofNat 12) || c = '\r'

/-- ASCII upper-casing of one character (Go `strings.ToUpper` / prompt.go
`toUpper` on the byte range `'a'..'z'`). -/
def upcaseChar (c : Char) : Char :=
  if 'a' ≤ c ∧ c ≤ 'z' then Char.ofNat (c.toNat - 32) else c

/-- ASCII upper-casing of a string. -/
def asciiToUpper (s : GoStr) : GoStr := s.map upcaseChar

/-- `strings.TrimSpace`: drop whitespace from both ends. -/
def goTrimSpace (s : GoStr) : GoStr :=
  ((s.dropWhile goIsSpace).reverse.dropWhile goIsSpace).reverse

/-- `strings.TrimSuffix`: remove one occurrence of a trailing suffix. -/
def goTrimSuffix (s suffix : GoStr) : GoStr :=
  if suffix.isSuffixOf s then s.take (s.length - suffix.length) else s

/-- `strings.Contains` on the embedded strings. -/
def containsSub (s sub : GoStr) : Bool :=
  if sub.isPrefixOf s then true
  else
    match s with
    | [] => false
    | _ :: t => containsSub t sub

/-- prompt.go `indexOf`: index of the first occurrence of `sub` in `s`. -/
def goIndexOf (s sub : GoStr) : Option Nat :=
  if sub.isPrefixOf s then some 0
  else
    match s with
    | [] => none
    | _ :: t => (goIndexOf t sub).map (· + 1)

/-- prompt.go `indexOfFrom`: first occurrence of `sub` at or after `from`. -/
def goIndexOfFrom (s sub : GoStr) (from_ : Nat) : Option Nat :=
  (goIndexOf (s.drop from_) sub).map (· + from_)

/-! ## Blocked-pattern regexps (internal/mcp validator)

The forbidden constructs are Go regexps of five fixed shapes; `Pat` is the
corresponding pattern language and `Pat.iMatch` the matcher.  `(?i)` is ASCII
case-insensitivity, `\b` the Go word boundary (word characters are
`[0-9A-Za-z_]`) and `\s` the Go regexp whitespace class `[\t\n\f\r ]`. -/

/-- Go regexp word character `\w` = `[0-9A-Za-z_]`. -/
def isWordChar (c : Char) : Bool :=
  ('0' ≤ c ∧ c ≤ '9') || ('A' ≤ c ∧ c ≤ 'Z') || ('a' ≤ c ∧ c ≤ 'z') || c = '_'

/-- Go regexp whitespace class `\s` = `[\t\n\f\r ]`. -/
def reSpace (c : Char) : Bool :=
  c = '\t' || c = '\n' || c = (Char.ofNat 12) || c = '\r' || c = ' '

/-- ASCII case-insensitive character equality (the `(?i)` regexp flag). -/
def ciEq (a b : Char) : Bool := upcaseChar a = upcaseChar b

/-- Case-insensitive literal match at the head of a string. -/
def ciPrefixAt : GoStr → GoStr → Bool
  | [], _ => true
  | _ :: _, [] => false
  | p :: ps, c :: cs => ciEq p c && ciPrefixAt ps cs

/-- A word-boundary after a literal: the next character, if any, is not a
word character. -/
def rightBoundary (s : GoStr) : Bool :=
  match s with
  | [] => true
  | c :: _ => !isWordChar c

/-- `(?i)w\b` matching at the head of a string (left boundary handled by the
scanner). -/
def matchWordHere (w s : GoStr) : Bool :=
  ciPrefixAt w s && rightBoundary (s.drop w.length)

/-- The five shapes of blocked-pattern regexps appearing in the validator:
`\bw\b`, `\bw₁\s+w₂\b`, a plain substring, `w₁\s+w₂` without boundaries and
the table-function shape `w\s*\(` — all with `(?i)`. -/
inductive Pat where
  | word (w : GoStr)
  | wordSeq (w₁ w₂ : GoStr)
  | sub (w : GoStr)
  | subSeq (w₁ w₂ : GoStr)
  | call (w : GoStr)
deriving DecidableEq

/-- Whether the pattern requires a word boundary on its left. -/
def Pat.needsLeftBoundary : Pat → Bool
  | .word _ => true
  | .wordSeq _ _ => true
  | _ => false

/-- Matching a pattern at the head of a string, ignoring the left boundary. -/
def Pat.hereMatch : Pat → GoStr → Bool
  | .word w, s => matchWordHere w s
  | .wordSeq w₁ w₂, s =>
      ciPrefixAt w₁ s &&
      (let r := s.drop w₁.length
       let r' := r.dropWhile reSpace
       decide (r'.length < r.length) && matchWordHere w₂ r')
  | .sub w, s => ciPrefixAt w s
  | .subSeq w₁ w₂, s =>
      ciPrefixAt w₁ s &&
      (let r := s.drop w₁.length
       let r' := r.dropWhile reSpace
       decide (r'.length < r.length) && ciPrefixAt w₂ r')
  | .call w, s =>
      ciPrefixAt w s &&
      (match (s.drop w.length).dropWhile reSpace with
       | '(' :: _ => true
       | _ => false)

/-- Is the character before the current position (if any) a word boundary? -/
def leftBoundary : Option Char → Bool
  | none => true
  | some c => !isWordChar c

/-- Scan every position of the string, tracking the previous character for
the left word boundary. -/
def scanPat (p : Pat) : Option Char → GoStr → Bool
  | prev, [] => (!p.needsLeftBoundary || leftBoundary prev) && p.hereMatch []
  | prev, c :: t =>
      ((!p.needsLeftBoundary || leftBoundary prev) && p.hereMatch (c :: t)) ||
      scanPat p (some c) t

/-- Go `pattern.MatchString`: the pattern matches somewhere in the string. -/
def Pat.iMatch (p : Pat) (s : GoStr) : Bool := scanPat p none s

/-- `blockedPatterns` of internal/mcp: the generic forbidden constructs. -/
def blockedPatterns : List Pat :=
  [ .word (gostr "INSERT"), .word (gostr "UPDATE"), .word (gostr "DELETE"),
    .word (gostr "DROP"), .word (gostr "TRUNCATE"), .word (gostr "ALTER"),
    .word (gostr "CREATE"), .word (gostr "GRANT"), .word (gostr "REVOKE"),
    .word (gostr "EXEC"), .word (gostr "EXECUTE"),
    .wordSeq (gostr "INTO") (gostr "OUTFILE"),
    .wordSeq (gostr "INTO") (gostr "DUMPFILE"),
    .word (gostr "LOAD_FILE"),
    .wordSeq (gostr "LOAD") (gostr "DATA") ]

/-- `PostgresBlockedPatterns` of internal/mcp. -/
def PostgresBlockedPatterns : List Pat :=
  [ .sub (gostr "pg_read_file"), .sub (gostr "pg_write_file"),
    .sub (gostr "pg_ls_dir"), .sub (gostr "lo_import"), .sub (gostr "lo_export"),
    .word (gostr "COPY"), .sub (gostr "dblink") ]

/-- `ClickhouseBlockedPatterns` of internal/mcp. -/
def ClickhouseBlockedPatterns : List Pat :=
  [ .call (gostr "file"), .call (gostr "url"), .call (gostr "remote"),
    .call (gostr "mysql"), .call (gostr "postgresql") ]

/-- `MysqlBlockedPatterns` of internal/mcp. -/
def MysqlBlockedPatterns : List Pat :=
  [ .sub (gostr "LOAD_FILE"),
    .subSeq (gostr "INTO") (gostr "OUTFILE"),
    .subSeq (gostr "INTO") (gostr "DUMPFILE") ]

/-- `SqliteBlockedPatterns` of internal/mcp. -/
def SqliteBlockedPatterns : List Pat :=
  [ .word (gostr "ATTACH"), .word (gostr "DETACH"), .sub (gostr "load_extension") ]

/-! ## The SQL safety validator (internal/mcp `ValidateSQL`, `EnforceLimit`) -/

/-- `mcp.ValidateSQL`: `none` means the query is accepted, `some msg` is the
Go error message.  Mirrors the Go source line by line: trim; reject empty;
reject more than one `';'`; require the upper-cased trimmed string to start
with `SELECT` or `WITH`; reject on any generic blocked pattern, then on any
dialect-specific pattern. -/
def ValidateSQL (sql₀ : GoStr) (additionalPatterns : List Pat) : Option String :=
  let sql := goTrimSpace sql₀
  if sql.isEmpty then some "empty SQL query"
  else if sql.count ';' > 1 then some "multiple statements not allowed"
  else
    let normalized := asciiToUpper (goTrimSpace sql)
    if !((gostr "SELECT").isPrefixOf normalized || (gostr "WITH").isPrefixOf normalized) then
      some "only SELECT statements allowed"
    else if blockedPatterns.any (fun p => p.iMatch sql) then
      some "blocked SQL pattern detected"
    else if additionalPatterns.any (fun p => p.iMatch sql) then
      some "blocked SQL pattern detected"
    else none

/-- `mcp.EnforceLimit`: return the query unchanged when its upper-cased form
contains `LIMIT`; otherwise trim surrounding whitespace, strip one trailing
`';'` and append `" <keyword> <maxRows>"`. -/
def EnforceLimit (sql : GoStr) (maxRows : Int) (limitKeyword : GoStr) : GoStr :=
  let normalized := asciiToUpper sql
  if containsSub normalized (gostr "LIMIT") then sql
  else
    let sql' := goTrimSuffix (goTrimSpace sql) (gostr ";")
    sql' ++ gostr " " ++ limitKeyword ++ gostr " " ++ (toString maxRows).data

example : gostr "ab" = ['a', 'b'] := rfl
example : asciiToUpper (gostr "sEl;") = gostr "SEL;" := by decide
example : goTrimSpace (gostr "  x y\n") = gostr "x y" := by decide
example : goTrimSuffix (gostr "ab;") (gostr ";") = gostr "ab" := by decide
example : containsSub (gostr "select limit 3") (gostr "limit") = true := by decide
example : goIndexOf (gostr "abcabc") (gostr "ca") = some 2 := by decide
example : goIndexOfFrom (gostr "abcabc") (gostr "b") 2 = some 4 := by decide

-- validator_test.go checks (a representative subset)
example : ValidateSQL (gostr "SELECT * FROM users") [] = none := by decide
example : ValidateSQL (gostr "WITH cte AS (SELECT * FROM users) SELECT * FROM cte") [] = none := by
  decide
example : ValidateSQL (gostr "   ") [] = some "empty SQL query" := by decide
example : ValidateSQL (gostr "DROP TABLE users") [] = some "only SELECT statements allowed" := by
  decide
example : ValidateSQL (gostr "SELECT 1; SELECT 2;") [] =
    some "multiple statements not allowed" := by decide
example : ValidateSQL (gostr "SELECT * INTO OUTFILE '/tmp/x'") [] =
    some "blocked SQL pattern detected" := by decide
example : ValidateSQL (gostr "SELECT LOAD_FILE('/etc/passwd')") [] =
    some "blocked SQL pattern detected" := by decide
example : ValidateSQL (gostr "SELECT delete_flag FROM t") [] = none := by decide
example : ValidateSQL (gostr "SELECT a, delete FROM t") [] =
    some "blocked SQL pattern detected" := by decide
example : ValidateSQL (gostr "SELECT pg_read_file('/etc/passwd')") PostgresBlockedPatterns =
    some "blocked SQL pattern detected" := by decide
example : ValidateSQL (gostr "SELECT * FROM file('/tmp/x.csv')") ClickhouseBlockedPatterns =
    some "blocked SQL pattern detected" := by decide
example : ValidateSQL (gostr "SELECT * FROM files") ClickhouseBlockedPatterns = none := by decide
example : EnforceLimit (gostr "SELECT * FROM users") 100 (gostr "LIMIT") =
    gostr "SELECT * FROM users LIMIT 100" := by decide
example : EnforceLimit (gostr "SELECT * FROM users LIMIT 10") 100 (gostr "LIMIT") =
    gostr "SELECT * FROM users LIMIT 10" := by decide
example : EnforceLimit (gostr "SELECT * FROM users;") 50 (gostr "LIMIT") =
    gostr "SELECT * FROM users LIMIT 50" := by decide

/-! ## SQL extraction from model output (internal/llm/prompt.go) -/

/-- prompt.go `isWhitespace` (space, tab, newline, carriage return). -/
def pIsWhitespace (c : Char) : Bool :=
  c = ' ' || c = '\t' || c = '\n' || c = '\r'

/-- prompt.go `trimWhitespace`. -/
def pTrimWhitespace (s : GoStr) : GoStr :=
  ((s.dropWhile pIsWhitespace).reverse.dropWhile pIsWhitespace).reverse

/-- prompt.go `trimSQL`: trim whitespace, drop one trailing `';'`, trim again. -/
def pTrimSQL (sql₀ : GoStr) : GoStr :=
  let sql := pTrimWhitespace sql₀
  let sql := if sql.getLast? = some ';' then sql.dropLast else sql
  pTrimWhitespace sql

/-- One iteration of the prompt.go `removeThinkingTags` loop.
`done s` means the loop exits with content `s` (still to be trimmed);
`cont s` means the loop continues on `s`. -/
inductive ThinkStep where
  | done (s : GoStr)
  | cont (s : GoStr)
deriving DecidableEq

/-- The body of the `removeThinkingTags` loop: find the first `<think>`;
if none, stop; find the first `</think>` (searched from the beginning of the
whole string, as in the Go source); if none, truncate at `<think>` and stop;
otherwise splice out `content[startIdx : endIdx+8]` and loop. -/
def removeThinkStep (content : GoStr) : ThinkStep :=
  match goIndexOf content (gostr "<think>") with
  | none => .done content
  | some startIdx =>
    match goIndexOf content (gostr "</think>") with
    | none => .done (content.take startIdx)
    | some endIdx =>
        .cont (content.take startIdx ++ content.drop (endIdx + (gostr "</think>").length))

/-- prompt.go `removeThinkingTags`, fuelled because the Go loop does not
terminate on every input; `none` means the fuel ran out (the Go loop has not
exited after that many iterations). -/
def removeThinkingTags : Nat → GoStr → Option GoStr
  | 0, _ => none
  | fuel + 1, content =>
    match removeThinkStep content with
    | .done s => some (pTrimWhitespace s)
    | .cont s => removeThinkingTags fuel s

/-- prompt.go `extractFromCodeBlock`. -/
def extractFromCodeBlock (content startMarker endMarker : GoStr) : GoStr :=
  match goIndexOf content startMarker with
  | none => []
  | some startIdx =>
    let contentStart := startIdx + startMarker.length
    let contentStart :=
      if (content.drop contentStart).head? = some '\n' then contentStart + 1
      else contentStart
    match goIndexOfFrom content endMarker contentStart with
    | none => []
    | some endIdx => pTrimSQL ((content.drop contentStart).take (endIdx - contentStart))

/-- prompt.go `extractSelectStatement`: from the first case-insensitive
`SELECT` up to the next blank line. -/
def extractSelectStatement (content : GoStr) : GoStr :=
  match goIndexOf (asciiToUpper content) (gostr "SELECT") with
  | none => []
  | some selectIdx =>
    let sql := content.drop selectIdx
    let sql :=
      match goIndexOf sql (gostr "\n\n") with
      | some endIdx => sql.take endIdx
      | none => sql
    pTrimSQL sql

/-- prompt.go `startsWithAny`. -/
def startsWithAny (s : GoStr) (prefixes : List GoStr) : Bool :=
  prefixes.any (fun p => p.isPrefixOf s)

/-- The part of prompt.go `ExtractSQL` after thinking-tag removal: fenced
`sql` block, then any fenced block, then first `SELECT` to blank line, then
the trimmed text when it starts with a known keyword, else empty. -/
def extractSQLBody (content : GoStr) : GoStr :=
  let b₁ := extractFromCodeBlock content (gostr "```sql") (gostr "```")
  if b₁ ≠ [] then b₁
  else
    let b₂ := extractFromCodeBlock content (gostr "```") (gostr "```")
    if b₂ ≠ [] then b₂
    else
      let b₃ := extractSelectStatement content
      if b₃ ≠ [] then b₃
      else
        let trimmed := pTrimSQL content
        let upper := asciiToUpper trimmed
        if startsWithAny upper
            [gostr "SELECT", gostr "WITH", gostr "VALUES", gostr "SHOW",
             gostr "DESCRIBE", gostr "EXPLAIN"] then
          trimmed
        else []

/-- prompt.go `ExtractSQL`, fuelled through `removeThinkingTags`; `none`
means the thinking-tag loop had not terminated after `fuel` iterations. -/
def ExtractSQL (fuel : Nat) (content : GoStr) : Option GoStr :=
  (removeThinkingTags fuel content).map extractSQLBody

-- prompt_test.go checks
example : ExtractSQL 9 (gostr "SELECT * FROM users") = some (gostr "SELECT * FROM users") := by
  decide
example : ExtractSQL 9 (gostr "SELECT * FROM users;") = some (gostr "SELECT * FROM users") := by
  decide
example : ExtractSQL 9 (gostr "```sql\nSELECT * FROM users\n```") =
    some (gostr "SELECT * FROM users") := by decide
example : ExtractSQL 9 (gostr "```\nSELECT * FROM users\n```") =
    some (gostr "SELECT * FROM users") := by decide
example : ExtractSQL 9 (gostr "Here is the query:\n```sql\nSELECT * FROM users\n```") =
    some (gostr "SELECT * FROM users") := by decide
example : ExtractSQL 9 (gostr "  SELECT * FROM users  ") =
    some (gostr "SELECT * FROM users") := by decide
example : ExtractSQL 9 (gostr "<think>ponder</think>SHOW TABLES") =
    some (gostr "SHOW TABLES") := by decide
example : ExtractSQL 9 (gostr "hello there") = some [] := by decide
example : ExtractSQL 9 (gostr "<think>unfinished SELECT") = some [] := by decide

/-! ## The database adapter `ExecuteQuery` (PostgreSQL adapter)

The driver is abstracted as a function from the final SQL text to either an
error or the column names plus the stream of rows the database would yield;
the row-collection loop, truncation and the `truncated` flag are embedded
from the source.  `maxRows` is a Go `int`, kept as `Int`. -/

/-- `mcp.QueryOptions` (the timeout is kept in seconds). -/
structure QueryOptions where
  maxRows : Int
  timeoutSeconds : Int
deriving DecidableEq

/-- `mcp.QueryResult` with an abstract cell type `α`. -/
structure QueryResult (α : Type) where
  columns : List GoStr
  rows : List (List α)
  rowCount : Nat
  truncated : Bool
deriving DecidableEq

/-- The row-collection loop of the adapter: append each row the driver
yields and stop as soon as more than `maxRows` rows have been collected
(hence at most `maxRows + 1` rows are read). -/
def collectLoop (maxRows : Int) (acc : List (List α)) : List (List α) → List (List α)
  | [] => acc
  | r :: rest =>
    if ((acc ++ [r]).length : Int) > maxRows then acc ++ [r]
    else collectLoop maxRows (acc ++ [r]) rest

/-- The post-driver part of the adapter's `ExecuteQuery`: collect, compute
`truncated`, cut back to `maxRows` rows.  (`resultRows[:opts.MaxRows]` in Go
requires a non-negative `maxRows`; the pipeline only passes positive caps.) -/
def execCollect (cols : List GoStr) (avail : List (List α)) (maxRows : Int) :
    QueryResult α :=
  let collected := collectLoop maxRows [] avail
  let truncated := decide ((collected.length : Int) > maxRows)
  let rows := if (collected.length : Int) > maxRows then collected.take maxRows.toNat
              else collected
  { columns := cols, rows := rows, rowCount := rows.length, truncated := truncated }

/-- The PostgreSQL adapter's `ExecuteQuery`: validate, enforce the row cap,
run the (abstracted) driver, collect rows boundedly. -/
def adapterExecuteQuery (pats : List Pat)
    (driver : GoStr → Except String (List GoStr × List (List α)))
    (sql : GoStr) (opts : QueryOptions) : Except String (QueryResult α) :=
  match ValidateSQL sql pats with
  | some msg => .error msg
  | none =>
    let sql' := EnforceLimit sql opts.maxRows (gostr "LIMIT")
    match driver sql' with
    | .error e => .error ("query failed: " ++ e)
    | .ok (cols, avail) => .ok (execCollect cols avail opts.maxRows)

example :
    adapterExecuteQuery (α := Int) PostgresBlockedPatterns
      (fun _ => .ok ([gostr "n"], [[1], [2], [3], [4]]))
      (gostr "SELECT n FROM t") ⟨2, 30⟩ =
    .ok ⟨[gostr "n"], [[1], [2]], 2, true⟩ := by rfl
example :
    adapterExecuteQuery (α := Int) PostgresBlockedPatterns
      (fun _ => .ok ([gostr "n"], [[1], [2]]))
      (gostr "SELECT n FROM t") ⟨5, 30⟩ =
    .ok ⟨[gostr "n"], [[1], [2]], 2, false⟩ := by rfl
example :
    adapterExecuteQuery (α := Int) PostgresBlockedPatterns
      (fun _ => .ok ([], []))
      (gostr "DROP TABLE t") ⟨5, 30⟩ = .error "only SELECT statements allowed" := by rfl

/-! ## The query pipeline (internal/service/query.go `QueryService.ExecuteQuery`)

The pipeline is embedded as a deterministic state-passing function.  All
external collaborators are oracles in an `Env`: the workspace-membership
answer, the connection row, the adapter/schema/provider acquisition results,
the LLM reply and the database driver.  The persistent side effects the
claims talk about (sessions created, messages written) are accumulated in a
`PipeState`.  Repository writes that the source only logs on failure (the
user/assistant message writes) are modelled as succeeding; wall-clock
metadata and the fire-and-forget title task are not modelled. -/

/-- A persisted chat session (the fields the claims mention). -/
structure Session where
  id : Nat
  workspaceID : Nat
  title : String
deriving DecidableEq

/-- Message role. -/
inductive Role where
  | user
  | assistant
deriving DecidableEq

/-- A persisted message (the fields the claims mention). -/
structure Message where
  role : Role
  sessionID : Nat
  content : String
  sql : GoStr
deriving DecidableEq

/-- The persistent side effects of one pipeline run. -/
structure PipeState where
  sessions : List Session
  messages : List Message
deriving DecidableEq

/-- A registered connection (`domain.Connection`, relevant fields). -/
structure Conn where
  id : Nat
  databaseType : String
  maxRows : Int
  timeoutSeconds : Int
deriving DecidableEq

/-- Per-request option overrides (`domain.QueryOptions`). -/
structure ReqOptions where
  maxRows : Int
  timeoutSeconds : Int
deriving DecidableEq

/-- `domain.QueryRequest`. -/
structure QueryRequest where
  connectionID : Nat
  question : String
  sessionID : Option Nat
  llmProvider : String
  llmModel : String
  execute : Bool
  options : Option ReqOptions
deriving DecidableEq

/-- The LLM provider's reply (`llm.Response`, relevant fields; `sql` is the
already-extracted SQL). -/
structure LLMReply where
  sql : GoStr
  explanation : String
deriving DecidableEq

/-- `domain.QueryResponse` (relevant fields). -/
structure QueryResponse (α : Type) where
  requestID : Nat
  sessionID : Nat
  question : String
  sql : GoStr
  explanation : String
  result : Option (QueryResult α)
  error : Option String
  llmProvider : String
  llmModel : String
deriving DecidableEq

/-- The oracle environment of one pipeline run: everything outside the
pipeline's own control flow. -/
structure Env (α : Type) where
  requestID : Nat
  newSessionID : Nat
  isMember : Bool
  conn : Option Conn
  adapterRes : Except String Unit
  schemaRes : Except String String
  providerRes : Except String Unit
  defaultProvider : String
  defaultModel : String
  llmRes : Except String LLMReply
  driver : GoStr → Except String (List GoStr × List (List α))

/-- `ConnectionService.GetFullConnection`: membership check first, then the
workspace-scoped connection lookup (credential decryption modelled as
succeeding). -/
def getFullConnection (env : Env α) : Except String Conn :=
  if !env.isMember then .error "access denied"
  else
    match env.conn with
    | none => .error "connection not found"
    | some c => .ok c

/-- Lines 203–219 of query.go: the effective row cap and timeout passed to
`execute_query`.  The row override is taken only when positive and strictly
below the connection cap; the timeout override is taken whenever positive. -/
def effectiveOpts (conn : Conn) (opts : Option ReqOptions) : QueryOptions :=
  let maxRows := conn.maxRows
  let timeout := conn.timeoutSeconds
  match opts with
  | none => ⟨maxRows, timeout⟩
  | some o =>
    let maxRows := if o.maxRows > 0 ∧ o.maxRows < maxRows then o.maxRows else maxRows
    let timeout := if o.timeoutSeconds > 0 then o.timeoutSeconds else timeout
    ⟨maxRows, timeout⟩

/-- The dialect-specific blocked-pattern set each adapter passes to
`mcp.ValidateSQL`. -/
def patternsFor (databaseType : String) : List Pat :=
  if databaseType = "postgres" then PostgresBlockedPatterns
  else if databaseType = "clickhouse" then ClickhouseBlockedPatterns
  else if databaseType = "mysql" then MysqlBlockedPatterns
  else if databaseType = "sqlite" then SqliteBlockedPatterns
  else []

/-- Lines 202–232 of query.go: when `execute` is set and the extracted SQL is
non-empty, run the adapter's `ExecuteQuery`; an error populates the
response's `error` field, a result populates `result`; otherwise the
response passes through untouched. -/
def executeBranch (driver : GoStr → Except String (List GoStr × List (List α)))
    (pats : List Pat) (opts : QueryOptions) (execute : Bool) (sql : GoStr)
    (resp : QueryResponse α) : QueryResponse α :=
  if execute ∧ sql ≠ [] then
    match adapterExecuteQuery pats driver sql opts with
    | .error e => { resp with error := some e }
    | .ok r => { resp with result := some r }
  else resp

/-- The session-update step at the end of the pipeline: refresh the title
when it is still `"New Chat"`. -/
def updateSessionTitle (question : String) (s : Session) : Session :=
  if s.title = "New Chat" then
    { s with title := if question.length > 30 then question.take 30 ++ "..." else question }
  else s

/-- Stage 1 of the pipeline: the session id used for this run — the supplied
one, or the id of the freshly created session. -/
def resolvedSessionID (env : Env α) (req : QueryRequest) : Nat :=
  match req.sessionID with
  | some sid => sid
  | none => env.newSessionID

/-- Stage 1 of the pipeline, persistent part: when no session id is supplied
a new session titled `"New Chat"` is created. -/
def initSessions (env : Env α) (wsID : Nat) (req : QueryRequest) : List Session :=
  match req.sessionID with
  | some _ => []
  | none => [⟨env.newSessionID, wsID, "New Chat"⟩]

/-- The state after stages 1–2: the (possibly fresh) session plus the
persisted user message. -/
def earlyState (env : Env α) (wsID : Nat) (req : QueryRequest) : PipeState :=
  ⟨initSessions env wsID req, [⟨.user, resolvedSessionID env req, req.question, []⟩]⟩

/-- The query response as assembled before the execute branch: `result` and
`error` empty, `sql` the LLM reply's SQL. -/
def baseResponse (env : Env α) (req : QueryRequest) (reply : LLMReply) : QueryResponse α :=
  ⟨env.requestID, resolvedSessionID env req, req.question, reply.sql, reply.explanation,
   none, none,
   if req.llmProvider = "" then env.defaultProvider else req.llmProvider,
   if req.llmModel = "" then env.defaultModel else req.llmModel⟩

/-- `QueryService.ExecuteQuery`, stage by stage in source order: session
resolution (a fresh session is created when none is supplied), user-message
persistence, connection resolution (which performs the membership check),
adapter acquisition, schema retrieval, provider and model resolution, SQL
generation, the optional execute branch, assistant-message persistence and
the session title update.  Stage failures abort with the wrapped error
message of the source; the state accumulated so far is returned alongside. -/
def pipeline (env : Env α) (wsID : Nat) (req : QueryRequest) :
    Except String (QueryResponse α) × PipeState :=
  let sessionID := resolvedSessionID env req
  let st₂ := earlyState env wsID req
  match getFullConnection env with
  | .error e => (.error ("failed to get connection: " ++ e), st₂)
  | .ok conn =>
    match env.adapterRes with
    | .error e => (.error ("failed to get database adapter: " ++ e), st₂)
    | .ok _ =>
      match env.schemaRes with
      | .error e => (.error ("failed to get schema: " ++ e), st₂)
      | .ok _ =>
        match env.providerRes with
        | .error e => (.error ("failed to get LLM provider: " ++ e), st₂)
        | .ok _ =>
          match env.llmRes with
          | .error e => (.error ("failed to generate SQL: " ++ e), st₂)
          | .ok llmResp =>
            let resp := executeBranch env.driver (patternsFor conn.databaseType)
              (effectiveOpts conn req.options) req.execute llmResp.sql
              (baseResponse env req llmResp)
            let content :=
              if llmResp.explanation ≠ "" then llmResp.explanation
              else
                match resp.error with
                | some e => "I encountered an error: " ++ e
                | none => "Here is the result of your query:"
            let st₃ : PipeState :=
              { st₂ with messages := st₂.messages ++ [⟨.assistant, sessionID, content, llmResp.sql⟩] }
            let upd := fun (s : Session) =>
              if s.id = sessionID then updateSessionTitle req.question s else s
            let st₄ : PipeState := { st₃ with sessions := st₃.sessions.map upd }
            (.ok resp, st₄)

/-! ## Specification-side definitions

These follow the wording of the specification / claims (not the source) and
are compared against the embedded source functions. -/

/-- "Rules applied in order, first failure wins" (spec §4.1). -/
def firstFailure : List (GoStr → Option String) → GoStr → Option String
  | [], _ => none
  | r :: rs, s =>
    match r s with
    | some e => some e
    | none => firstFailure rs s

/-- Spec rule 1: reject empty or whitespace-only input (applied to the
trimmed string). -/
def ruleNonEmpty (s : GoStr) : Option String :=
  if s.isEmpty then some "empty SQL query" else none

/-- Spec rule 2: reject more than one statement terminator. -/
def ruleSingleStatement (s : GoStr) : Option String :=
  if s.count ';' > 1 then some "multiple statements not allowed" else none

/-- The first keyword of a SQL string: the maximal leading run of word
characters of the trimmed string, upper-cased. -/
def firstKeyword (s : GoStr) : GoStr :=
  asciiToUpper ((goTrimSpace s).takeWhile isWordChar)

/-- Spec rule 3 as the claim words it: the *first keyword* must be `SELECT`
or `WITH`. -/
def ruleFirstKeyword (s : GoStr) : Option String :=
  if firstKeyword s = gostr "SELECT" ∨ firstKeyword s = gostr "WITH" then none
  else some "only SELECT statements allowed"

/-- Spec rule 3 as the source implements it: the upper-cased trimmed string
must *start with* `SELECT` or `WITH`. -/
def ruleStartsSelectOrWith (s : GoStr) : Option String :=
  let normalized := asciiToUpper (goTrimSpace s)
  if !((gostr "SELECT").isPrefixOf normalized || (gostr "WITH").isPrefixOf normalized) then
    some "only SELECT statements allowed"
  else none

/-- Spec rules 4/5: reject when any pattern of the given set matches. -/
def ruleBlocked (pats : List Pat) (s : GoStr) : Option String :=
  if pats.any (fun p => p.iMatch s) then some "blocked SQL pattern detected" else none

/-- The validator as claim C4 words it (first-keyword reading of rule 3). -/
def validateSQLClaim (sql : GoStr) (additionalPatterns : List Pat) : Option String :=
  firstFailure
    [ruleNonEmpty, ruleSingleStatement, ruleFirstKeyword,
     ruleBlocked blockedPatterns, ruleBlocked additionalPatterns]
    (goTrimSpace sql)

/-- The validator as claim C4 amended (prefix reading of rule 3). -/
def validateSQLAmended (sql : GoStr) (additionalPatterns : List Pat) : Option String :=
  firstFailure
    [ruleNonEmpty, ruleSingleStatement, ruleStartsSelectOrWith,
     ruleBlocked blockedPatterns, ruleBlocked additionalPatterns]
    (goTrimSpace sql)

/-- Row-cap enforcement as claim C5 words it: unchanged when the upper-cased
string contains `LIMIT`, otherwise surrounding whitespace and a trailing
`';'` are stripped and a space, the `LIMIT` keyword, a space and the cap are
appended. -/
def enforceLimitClaim (sql : GoStr) (cap : Int) : GoStr :=
  if containsSub (asciiToUpper sql) (gostr "LIMIT") then sql
  else
    goTrimSuffix (goTrimSpace sql) (gostr ";") ++
      gostr " " ++ gostr "LIMIT" ++ gostr " " ++ (toString cap).data

/-! ## Helper lemmas -/

/-- A list is a (BEq-)prefix of itself followed by anything. -/
theorem isPrefixOf_append_self (l t : GoStr) : l.isPrefixOf (l ++ t) = true := by
  induction l with
  | nil => simp [List.isPrefixOf]
  | cons c cs ih => simp [List.isPrefixOf, ih]

/-- `containsSub` holds when the needle is a prefix of the haystack. -/
theorem containsSub_of_isPrefixOf {s sub : GoStr} (h : sub.isPrefixOf s = true) :
    containsSub s sub = true := by
  unfold containsSub
  simp [h]

/-- `containsSub` is preserved by prepending to the haystack. -/
theorem containsSub_append_left (xs : GoStr) {ys sub : GoStr}
    (h : containsSub ys sub = true) : containsSub (xs ++ ys) sub = true := by
  induction xs with
  | nil => simpa using h
  | cons c t ih =>
    unfold containsSub
    rcases hp : sub.isPrefixOf (c :: (t ++ ys)) with _ | _
    · simpa [hp] using ih
    · simp [hp]

/-- Upper-casing distributes over append. -/
theorem asciiToUpper_append (xs ys : GoStr) :
    asciiToUpper (xs ++ ys) = asciiToUpper xs ++ asciiToUpper ys := by
  simp [asciiToUpper]

/-! ## Claim C5 — row-cap enforcement shape -/

/-- C5: for every SQL string and cap, row-cap enforcement returns the string
unchanged when its upper-cased form contains `LIMIT`; otherwise it strips
surrounding whitespace and a trailing `';'` and appends a space, the `LIMIT`
keyword and the cap value. -/
theorem enforceLimit_matches_claim (sql : GoStr) (cap : Int) :
    EnforceLimit sql cap (gostr "LIMIT") = enforceLimitClaim sql cap := rfl

/-! ## Claim C9 — row-cap enforcement is idempotent -/

/-- C9: applying `EnforceLimit` twice with the same cap yields the same
string as applying it once. -/
theorem enforceLimit_idempotent (sql : GoStr) (cap : Int) :
    EnforceLimit (EnforceLimit sql cap (gostr "LIMIT")) cap (gostr "LIMIT") =
      EnforceLimit sql cap (gostr "LIMIT") := by
  rcases h : containsSub (asciiToUpper sql) (gostr "LIMIT") with _ | _
  · have hres : EnforceLimit sql cap (gostr "LIMIT") =
        goTrimSuffix (goTrimSpace sql) (gostr ";") ++
          (gostr " " ++ (gostr "LIMIT" ++ (gostr " " ++ (toString cap).data))) := by
      unfold EnforceLimit
      simp [h, List.append_assoc]
    rw [hres]
    unfold EnforceLimit
    have hcontains :
        containsSub
          (asciiToUpper
            (goTrimSuffix (goTrimSpace sql) (gostr ";") ++
              (gostr " " ++ (gostr "LIMIT" ++ (gostr " " ++ (toString cap).data)))))
          (gostr "LIMIT") = true := by
      simp only [asciiToUpper_append]
      refine containsSub_append_left _ ?_
      refine containsSub_append_left _ ?_
      refine containsSub_of_isPrefixOf ?_
      have hup : asciiToUpper (gostr "LIMIT") = gostr "LIMIT" := rfl
      rw [hup]
      exact isPrefixOf_append_self _ _
    simp [hcontains]
  · unfold EnforceLimit
    simp [h]

/-! ## Claim C10 — a single interior semicolon is accepted -/

/-- C10: the multiple-statement rule counts `';'` characters, so
`"SELECT 1; SELECT 2"` — two complete statements separated by one interior
semicolon — passes every validation rule, while a second semicolon is
rejected. -/
theorem validator_accepts_single_interior_semicolon :
    ValidateSQL (gostr "SELECT 1; SELECT 2") PostgresBlockedPatterns = none ∧
    (goTrimSpace (gostr "SELECT 1; SELECT 2")).count ';' = 1 ∧
    ValidateSQL (gostr "SELECT 1; SELECT 2;") PostgresBlockedPatterns =
      some "multiple statements not allowed" := by decide

/-! ## Claim C2 — effective row cap and deadline -/

/-- C2 counterexample: with a connection timeout of 30 s and a per-request
override of 300 s, the effective timeout passed to `execute_query` is 300 s,
not `min 30 300 = 30` — the override exceeds the connection-level limit. -/
theorem effective_timeout_not_min :
    (effectiveOpts ⟨1, "postgres", 1000, 30⟩ (some ⟨0, 300⟩)).timeoutSeconds = 300 ∧
    min (30 : Int) 300 = 30 ∧ (300 : Int) ≠ 30 := by decide

/-- C2 amended: the effective row cap is `min(connection cap, override)`
whenever the override is positive (the connection cap otherwise), while the
effective timeout is the override itself whenever positive — it replaces the
connection timeout and may exceed it — and the connection timeout otherwise;
absent options leave both connection limits in force. -/
theorem effectiveOpts_spec (conn : Conn) :
    effectiveOpts conn none = ⟨conn.maxRows, conn.timeoutSeconds⟩ ∧
    ∀ o : ReqOptions,
      ((0 < o.maxRows →
          (effectiveOpts conn (some o)).maxRows = min conn.maxRows o.maxRows) ∧
       (¬ 0 < o.maxRows →
          (effectiveOpts conn (some o)).maxRows = conn.maxRows) ∧
       (0 < o.timeoutSeconds →
          (effectiveOpts conn (some o)).timeoutSeconds = o.timeoutSeconds) ∧
       (¬ 0 < o.timeoutSeconds →
          (effectiveOpts conn (some o)).timeoutSeconds = conn.timeoutSeconds)) := by
  refine ⟨rfl, fun o => ⟨?_, ?_, ?_, ?_⟩⟩ <;>
    · intro h
      simp only [effectiveOpts]
      split_ifs <;> omega

/-- C2 witness: a concrete application of `effectiveOpts_spec`. -/
theorem effectiveOpts_spec_witness :
    (effectiveOpts ⟨1, "postgres", 1000, 30⟩ (some ⟨500, 300⟩)).maxRows = min 1000 500 ∧
    (effectiveOpts ⟨1, "postgres", 1000, 30⟩ (some ⟨500, 300⟩)).timeoutSeconds = 300 :=
  ⟨((effectiveOpts_spec ⟨1, "postgres", 1000, 30⟩).2 ⟨500, 300⟩).1 (by decide),
   ((effectiveOpts_spec ⟨1, "postgres", 1000, 30⟩).2 ⟨500, 300⟩).2.2.1 (by decide)⟩

/-! ## Claim C4 — validator rules -/

/-- C4 counterexample: `"WITHDRAWAL FROM accounts"` — whose first keyword is
`WITHDRAWAL`, neither `SELECT` nor `WITH` — is accepted by the source
validator, because the source tests a *prefix* of the upper-cased string,
while the claim's first-keyword rule rejects it. -/
theorem validator_first_keyword_counterexample :
    ValidateSQL (gostr "WITHDRAWAL FROM accounts") [] = none ∧
    validateSQLClaim (gostr "WITHDRAWAL FROM accounts") [] =
      some "only SELECT statements allowed" ∧
    firstKeyword (gostr "WITHDRAWAL FROM accounts") = gostr "WITHDRAWAL" := by decide

/-- C4 amended: the validator applies its rules in order with the first
failure winning — reject empty/whitespace-only input; reject more than one
`';'` (a single `';'` anywhere is never treated as multiple statements);
reject unless the upper-cased trimmed string *starts with* `SELECT` or
`WITH` (a prefix test, not a first-keyword test); reject on any generic
blocked pattern, then on any dialect-specific pattern; otherwise accept. -/
theorem validateSQL_eq_amended_claim (sql : GoStr) (pats : List Pat) :
    ValidateSQL sql pats = validateSQLAmended sql pats := by
  simp only [ValidateSQL, validateSQLAmended, firstFailure, ruleNonEmpty,
    ruleSingleStatement, ruleStartsSelectOrWith, ruleBlocked]
  by_cases h₁ : (goTrimSpace sql).isEmpty = true
  · simp [h₁]
  · by_cases h₂ : (goTrimSpace sql).count ';' > 1
    · simp [h₁, h₂]
    · by_cases h₃ :
          ((gostr "SELECT").isPrefixOf (asciiToUpper (goTrimSpace (goTrimSpace sql))) ||
            (gostr "WITH").isPrefixOf (asciiToUpper (goTrimSpace (goTrimSpace sql)))) = true
      · by_cases h₄ : blockedPatterns.any (fun p => p.iMatch (goTrimSpace sql)) = true
        · simp [h₁, h₂, h₃, h₄]
        · by_cases h₅ : pats.any (fun p => p.iMatch (goTrimSpace sql)) = true
          · simp [h₁, h₂, h₃, h₄, h₅]
          · simp [h₁, h₂, h₃, h₄, h₅]
      · simp [h₁, h₂, h₃]

/-! ## Claim C7 — SQL extraction and the thinking-tag loop -/

/-- An input on which the first `</think>` precedes the first `<think>`. -/
def thinkTagBadInput : GoStr := gostr "</think><think>SELECT 1"

/-- C7: on `"</think><think>SELECT 1"` the `removeThinkingTags` loop body of
prompt.go rebuilds exactly the input string (the splice
`content[:startIdx] + content[endIdx+8:]` is the identity because the first
`</think>` ends where the first `<think>` begins), so the loop never
terminates and `ExtractSQL` never returns, however much fuel it is given —
whereas the claim's step (1) would have the unterminated `<think>` truncate
the rest and extraction return the empty string. -/
theorem extractSQL_think_loop_diverges :
    removeThinkStep thinkTagBadInput = .cont thinkTagBadInput ∧
    ∀ fuel : Nat, ExtractSQL fuel thinkTagBadInput = none := by
  have hstep : removeThinkStep thinkTagBadInput = .cont thinkTagBadInput := by decide
  refine ⟨hstep, ?_⟩
  have h : ∀ f : Nat, removeThinkingTags f thinkTagBadInput = none := by
    intro f
    induction f with
    | zero => rfl
    | succ n ih =>
      show removeThinkingTags (n + 1) thinkTagBadInput = none
      unfold removeThinkingTags
      rw [hstep]
      exact ih
  intro fuel
  simp [ExtractSQL, h fuel]

/-! ## Claim C6 — bounded row collection -/

/-- The collection loop with a partial accumulator: it extends the
accumulator with the next `maxRows + 1 - |acc|` rows. -/
theorem collectLoop_go (maxRows : Int) (l : List (List α)) :
    ∀ acc : List (List α), (acc.length : Int) ≤ maxRows →
      collectLoop maxRows acc l = acc ++ l.take (maxRows.toNat + 1 - acc.length) := by
  induction l with
  | nil => intro acc _; simp [collectLoop]
  | cons r rest ih =>
    intro acc hacc
    rw [collectLoop]
    by_cases hlen : ((acc ++ [r]).length : Int) > maxRows
    · rw [if_pos hlen]
      have hl : (acc ++ [r]).length = acc.length + 1 := by simp
      rw [hl] at hlen
      have h2 : maxRows.toNat + 1 - acc.length = 1 := by omega
      rw [h2]
      simp
    · rw [if_neg hlen]
      have hl : (acc ++ [r]).length = acc.length + 1 := by simp
      rw [hl] at hlen
      have hle : (((acc ++ [r]).length : Nat) : Int) ≤ maxRows := by
        rw [hl]
        omega
      rw [ih (acc ++ [r]) hle]
      have h3 : maxRows.toNat + 1 - acc.length =
          (maxRows.toNat + 1 - (acc ++ [r]).length) + 1 := by
        rw [hl]
        omega
      rw [h3]
      simp [List.append_assoc]

/-- The adapter reads exactly the first `maxRows + 1` rows the driver
yields. -/
theorem collectLoop_eq_take (maxRows : Int) (h : 0 ≤ maxRows) (l : List (List α)) :
    collectLoop maxRows [] l = l.take (maxRows.toNat + 1) := by
  simpa using collectLoop_go maxRows l [] (by simpa using h)

/-- C6: for every successful `execute_query`, the adapter reads at most
`max_rows + 1` rows, the result's `row_count` is at most `max_rows` with the
rows truncated to `max_rows`, and `truncated` holds exactly when the adapter
read more rows than `max_rows`. -/
theorem executeQuery_bounded (pats : List Pat)
    (driver : GoStr → Except String (List GoStr × List (List α)))
    (sql : GoStr) (opts : QueryOptions) (cols : List GoStr) (avail : List (List α))
    (res : QueryResult α)
    (hm : 0 ≤ opts.maxRows)
    (hdrv : driver (EnforceLimit sql opts.maxRows (gostr "LIMIT")) = .ok (cols, avail))
    (hok : adapterExecuteQuery pats driver sql opts = .ok res) :
    res = execCollect cols avail opts.maxRows ∧
    ((collectLoop opts.maxRows ([] : List (List α)) avail).length : Int) ≤ opts.maxRows + 1 ∧
    (res.rowCount : Int) ≤ opts.maxRows ∧
    (res.truncated = true ↔ ((collectLoop opts.maxRows ([] : List (List α)) avail).length : Int) > opts.maxRows) := by
  have hval : ValidateSQL sql pats = none := by
    rcases hv : ValidateSQL sql pats with _ | msg
    · rfl
    · rw [adapterExecuteQuery, hv] at hok
      cases hok
  simp only [adapterExecuteQuery, hval, hdrv] at hok
  have hres : res = execCollect cols avail opts.maxRows := by
    cases hok
    rfl
  subst hres
  refine ⟨rfl, ?_, ?_, ?_⟩
  · rw [collectLoop_eq_take _ hm]
    simp only [List.length_take]
    omega
  · show (((execCollect cols avail opts.maxRows).rowCount : Int)) ≤ opts.maxRows
    unfold execCollect
    dsimp only
    by_cases htr :
        ((collectLoop opts.maxRows ([] : List (List α)) avail).length : Int) > opts.maxRows
    · rw [if_pos htr]
      simp only [List.length_take]
      omega
    · rw [if_neg htr]
      omega
  · unfold execCollect
    dsimp only
    simp [decide_eq_true_iff]

/-- C6 witness: three available rows against a cap of 2 — the result is
truncated to two rows after three were read. -/
theorem executeQuery_bounded_witness :
    (⟨[gostr "n"], [[(1 : Int)], [2]], 2, true⟩ : QueryResult Int) =
        execCollect [gostr "n"] [[(1 : Int)], [2], [3]] 2 ∧
    ((collectLoop 2 ([] : List (List Int)) [[(1 : Int)], [2], [3]]).length : Int) ≤ 2 + 1 ∧
    (((⟨[gostr "n"], [[(1 : Int)], [2]], 2, true⟩ : QueryResult Int)).rowCount : Int) ≤ 2 ∧
    ((⟨[gostr "n"], [[(1 : Int)], [2]], 2, true⟩ : QueryResult Int).truncated = true ↔
      ((collectLoop 2 ([] : List (List Int)) [[(1 : Int)], [2], [3]]).length : Int) > 2) := by
  have happ :
      adapterExecuteQuery PostgresBlockedPatterns
        (fun _ => .ok ([gostr "n"], [[(1 : Int)], [2], [3]]))
        (gostr "SELECT n FROM t") ⟨2, 30⟩ =
      .ok (⟨[gostr "n"], [[(1 : Int)], [2]], 2, true⟩ : QueryResult Int) := by rfl
  exact executeQuery_bounded PostgresBlockedPatterns
    (fun _ => .ok ([gostr "n"], [[(1 : Int)], [2], [3]]))
    (gostr "SELECT n FROM t") ⟨2, 30⟩ [gostr "n"] [[(1 : Int)], [2], [3]]
    ⟨[gostr "n"], [[(1 : Int)], [2]], 2, true⟩ (by decide) rfl happ

/-! ## Pipeline lemmas -/

/-- When every stage up to SQL generation succeeds, the pipeline's response
is the base response put through the execute branch. -/
theorem pipeline_ok_eq (env : Env α) (wsID : Nat) (req : QueryRequest) (conn : Conn)
    (reply : LLMReply) (ddl : String)
    (hconn : getFullConnection env = .ok conn)
    (had : env.adapterRes = .ok ())
    (hsch : env.schemaRes = .ok ddl)
    (hprov : env.providerRes = .ok ())
    (hllm : env.llmRes = .ok reply) :
    (pipeline env wsID req).1 =
      .ok (executeBranch env.driver (patternsFor conn.databaseType)
        (effectiveOpts conn req.options) req.execute reply.sql
        (baseResponse env req reply)) := by
  unfold pipeline
  rw [hconn, had, hsch, hprov, hllm]

/-- A validation failure makes the adapter's `ExecuteQuery` fail with the
validator's message, whatever the driver would have answered. -/
theorem adapterExecuteQuery_validation_error (pats : List Pat)
    (driver : GoStr → Except String (List GoStr × List (List α)))
    (sql : GoStr) (opts : QueryOptions) (msg : String)
    (h : ValidateSQL sql pats = some msg) :
    adapterExecuteQuery pats driver sql opts = .error msg := by
  simp [adapterExecuteQuery, h]

/-- Strip the `result`/`error` part of a response. -/
def maskResultError (r : QueryResponse α) : QueryResponse α :=
  { r with result := none, error := none }

/-- The execute branch touches only the `result` / `error` fields. -/
theorem maskResultError_executeBranch
    (driver : GoStr → Except String (List GoStr × List (List α)))
    (pats : List Pat) (opts : QueryOptions) (execute : Bool) (sql : GoStr)
    (resp : QueryResponse α) :
    maskResultError (executeBranch driver pats opts execute sql resp) =
      maskResultError resp := by
  unfold executeBranch
  split
  · rcases adapterExecuteQuery pats driver sql opts with e | r <;> rfl
  · rfl

/-- With `execute = false` the execute branch is the identity. -/
theorem executeBranch_false
    (driver : GoStr → Except String (List GoStr × List (List α)))
    (pats : List Pat) (opts : QueryOptions) (sql : GoStr) (resp : QueryResponse α) :
    executeBranch driver pats opts false sql resp = resp := by
  simp [executeBranch]

/-! ## Claim C3 — membership denial and side effects -/

/-- A run in which the caller is not a member of the workspace. -/
def envDenied : Env Int :=
  ⟨7, 42, false, none, .ok (), .ok "", .ok (), "ollama", "m",
   .ok ⟨gostr "SELECT 1", ""⟩, fun _ => .ok ([], [])⟩

/-- A query request carrying no session id. -/
def reqDenied : QueryRequest := ⟨1, "how many users?", none, "", "", true, none⟩

/-- C3 counterexample: when the membership check fails on a request without
a session id, the pipeline does return an access-denied error — but a new
session *and* the user message have already been persisted, contradicting
"no side effects". -/
theorem membership_denial_counterexample :
    (pipeline envDenied 2 reqDenied).1 = .error "failed to get connection: access denied" ∧
    (pipeline envDenied 2 reqDenied).2.sessions = [⟨42, 2, "New Chat"⟩] ∧
    (pipeline envDenied 2 reqDenied).2.messages = [⟨.user, 42, "how many users?", []⟩] :=
  ⟨rfl, rfl, rfl⟩

/-- C3 amended: when the membership check fails the pipeline aborts with the
(wrapped) access-denied error before SQL generation, execution or
assistant-message persistence — but the new session (when no session id was
supplied) and the user message have already been persisted, because the
membership check only happens during connection resolution. -/
theorem membership_denial_aborts (env : Env α) (wsID : Nat) (req : QueryRequest)
    (h : env.isMember = false) :
    pipeline env wsID req =
      (.error "failed to get connection: access denied", earlyState env wsID req) := by
  unfold pipeline getFullConnection
  rw [h]
  rfl

/-- C3 witness: the amended statement applied to the concrete denied run. -/
theorem membership_denial_aborts_witness :
    pipeline envDenied 2 reqDenied =
      (.error "failed to get connection: access denied", earlyState envDenied 2 reqDenied) :=
  membership_denial_aborts envDenied 2 reqDenied rfl

/-! ## Claim C8 — `generate` / `query` equivalence -/

/-- C8: two pipeline runs on identical inputs that differ only in the
`execute` flag agree on everything except the `result` / `error` part of the
response: the run with `execute = false` returns exactly the other run's
response with `result` and `error` blanked — in particular the `sql` field
is identical.  (The `/generate` handler is the pipeline with `execute`
forced to false.) -/
theorem generate_query_same_sql (env : Env α) (wsID : Nat) (req : QueryRequest) :
    (pipeline env wsID { req with execute := false }).1 =
      ((pipeline env wsID { req with execute := true }).1).map maskResultError := by
  unfold pipeline
  cases hconn : getFullConnection env with
  | error e => rfl
  | ok conn =>
    cases had : env.adapterRes with
    | error e => rfl
    | ok u =>
      cases hsch : env.schemaRes with
      | error e => rfl
      | ok ddl =>
        cases hprov : env.providerRes with
        | error e => rfl
        | ok v =>
          cases hllm : env.llmRes with
          | error e => rfl
          | ok reply =>
            dsimp only [Except.map]
            rw [maskResultError_executeBranch, executeBranch_false]
            rfl

/-! ## Claim C1 — validation gates execution, failures populate `error` -/

/-- When the adapter call fails, the execute branch only sets `error`. -/
theorem executeBranch_error
    (driver : GoStr → Except String (List GoStr × List (List α)))
    (pats : List Pat) (opts : QueryOptions) (sql : GoStr) (resp : QueryResponse α)
    (msg : String) (hsql : sql ≠ [])
    (h : adapterExecuteQuery pats driver sql opts = .error msg) :
    executeBranch driver pats opts true sql resp = { resp with error := some msg } := by
  rw [executeBranch, if_pos ⟨rfl, hsql⟩, h]

/-- When the adapter call succeeds, the execute branch only sets `result`. -/
theorem executeBranch_ok
    (driver : GoStr → Except String (List GoStr × List (List α)))
    (pats : List Pat) (opts : QueryOptions) (sql : GoStr) (resp : QueryResponse α)
    (r : QueryResult α) (hsql : sql ≠ [])
    (h : adapterExecuteQuery pats driver sql opts = .ok r) :
    executeBranch driver pats opts true sql resp = { resp with result := some r } := by
  rw [executeBranch, if_pos ⟨rfl, hsql⟩, h]

/-- C1: with `execute = true` and non-empty generated SQL and all stages up
to SQL generation succeeding, (a) a validator failure populates the
response's `error` with the validator message, leaves `result` empty, and
the pipeline still returns a normal response whose value is independent of
the database driver — the driver is never consulted; (b) an execution
failure populates `error` with the wrapped driver error and leaves `result`
empty, again returning a normal response; (c) execution happens exactly when
validation succeeds, populating `result`. -/
theorem pipeline_validates_before_execute (env : Env α) (wsID : Nat) (req : QueryRequest)
    (conn : Conn) (reply : LLMReply) (ddl : String)
    (hconn : getFullConnection env = .ok conn)
    (had : env.adapterRes = .ok ())
    (hsch : env.schemaRes = .ok ddl)
    (hprov : env.providerRes = .ok ())
    (hllm : env.llmRes = .ok reply)
    (hex : req.execute = true)
    (hsql : reply.sql ≠ []) :
    (∀ msg, ValidateSQL reply.sql (patternsFor conn.databaseType) = some msg →
      (∃ r, (pipeline env wsID req).1 = .ok r ∧ r.error = some msg ∧ r.result = none) ∧
      ∀ driver' : GoStr → Except String (List GoStr × List (List α)),
        (pipeline { env with driver := driver' } wsID req).1 = (pipeline env wsID req).1) ∧
    (∀ e, ValidateSQL reply.sql (patternsFor conn.databaseType) = none →
      env.driver (EnforceLimit reply.sql (effectiveOpts conn req.options).maxRows
          (gostr "LIMIT")) = .error e →
      ∃ r, (pipeline env wsID req).1 = .ok r ∧
        r.error = some ("query failed: " ++ e) ∧ r.result = none) ∧
    (∀ cols avail, ValidateSQL reply.sql (patternsFor conn.databaseType) = none →
      env.driver (EnforceLimit reply.sql (effectiveOpts conn req.options).maxRows
          (gostr "LIMIT")) = .ok (cols, avail) →
      ∃ r, (pipeline env wsID req).1 = .ok r ∧ r.error = none ∧
        r.result = some (execCollect cols avail (effectiveOpts conn req.options).maxRows)) := by
  have hmain := pipeline_ok_eq env wsID req conn reply ddl hconn had hsch hprov hllm
  rw [hex] at hmain
  refine ⟨?_, ?_, ?_⟩
  · intro msg hval
    constructor
    · exact ⟨_, by
        rw [hmain, executeBranch_error _ _ _ _ _ _ hsql
          (adapterExecuteQuery_validation_error _ _ _ _ _ hval)], rfl, rfl⟩
    · intro driver'
      have hconn' : getFullConnection { env with driver := driver' } = .ok conn := hconn
      have hmain' := pipeline_ok_eq { env with driver := driver' } wsID req conn reply ddl
        hconn' had hsch hprov hllm
      rw [hex] at hmain'
      rw [hmain', hmain,
        executeBranch_error _ _ _ _ _ _ hsql
          (adapterExecuteQuery_validation_error _ _ _ _ _ hval),
        executeBranch_error _ _ _ _ _ _ hsql
          (adapterExecuteQuery_validation_error _ _ _ _ _ hval)]
      rfl
  · intro e hval hdrv
    have hadapter : adapterExecuteQuery (patternsFor conn.databaseType) env.driver reply.sql
        (effectiveOpts conn req.options) = .error ("query failed: " ++ e) := by
      simp [adapterExecuteQuery, hval, hdrv]
    exact ⟨_, by rw [hmain, executeBranch_error _ _ _ _ _ _ hsql hadapter], rfl, rfl⟩
  · intro cols avail hval hdrv
    have hadapter : adapterExecuteQuery (patternsFor conn.databaseType) env.driver reply.sql
        (effectiveOpts conn req.options) =
        .ok (execCollect cols avail (effectiveOpts conn req.options).maxRows) := by
      simp [adapterExecuteQuery, hval, hdrv]
    exact ⟨_, by rw [hmain, executeBranch_ok _ _ _ _ _ _ hsql hadapter], rfl, rfl⟩

/-- A run in which every stage succeeds and the LLM returns safe SQL. -/
def envValidated : Env Int :=
  ⟨9, 41, true, some ⟨1, "postgres", 100, 30⟩, .ok (), .ok "ddl", .ok (), "ollama", "m",
   .ok ⟨gostr "SELECT n FROM t", ""⟩, fun _ => .ok ([gostr "n"], [[1], [2]])⟩

/-- A query request with `execute = true` on an existing session. -/
def reqValidated : QueryRequest := ⟨1, "count", some 5, "", "", true, none⟩

/-- C1 witness: the successful-execution conjunct applied to the concrete
run. -/
theorem pipeline_validates_before_execute_witness :
    ∃ r, (pipeline envValidated 2 reqValidated).1 = .ok r ∧ r.error = none ∧
      r.result = some (execCollect [gostr "n"] [[(1 : Int)], [2]]
        (effectiveOpts ⟨1, "postgres", 100, 30⟩ none).maxRows) :=
  (pipeline_validates_before_execute envValidated 2 reqValidated ⟨1, "postgres", 100, 30⟩
    ⟨gostr "SELECT n FROM t", ""⟩ "ddl" rfl rfl rfl rfl rfl rfl (by decide)).2.2
    [gostr "n"] [[(1 : Int)], [2]] (by decide) rfl
